import Mathlib

/-!
Shallow embedding of the SnapBoost backend (`main_api.py`), a FastAPI prompt
router with five generation endpoints and a health check. The external
generation collaborator (`gemini_model.generate_content`) is modelled as a
function from the prompt string to either generated text or an exception
message. Each endpoint is modelled as a function returning the list of
prompts sent to the collaborator (the call log) together with the JSON body,
modelled as a list of key/value pairs.
-/

namespace SnapBoost

/-- Whitespace characters removed by Python `str.strip` (ASCII whitespace). -/
def wsChar (c : Char) : Bool :=
  c == ' ' || c == '\t' || c == '\n' || c == '\r' || c == '\x0b' || c == '\x0c'

/-- Model of Python `str.strip` on character lists: drop whitespace from both ends. -/
def pyStripData (l : List Char) : List Char :=
  ((l.dropWhile wsChar).reverse.dropWhile wsChar).reverse

/-- Model of Python `str.strip`. -/
def pyStrip (s : String) : String := ⟨pyStripData s.data⟩

/-- Model of Python `str.lower` (ASCII case folding via `Char.toLower`). -/
def pyLower (s : String) : String := ⟨s.data.map Char.toLower⟩

/-- Model of Python `pat in s`: substring containment. -/
def pyIn (pat s : String) : Bool := decide (pat.data <:+: s.data)

/-- The external generation collaborator: a prompt goes in, and either
generated text comes back or an exception with a message is raised. -/
abbrev Gen := String → Except String String

/-- A JSON object body, as a list of key/value pairs. -/
abbrev Body := List (String × String)

/-- The observable outcome of one endpoint call: the prompts sent to the
collaborator, in order, and the returned JSON body. -/
structure EndpointResult where
  calls : List String
  body : Body
deriving DecidableEq

/-- Health check `GET /`: returns a fixed message and never touches the collaborator. -/
def root (_gen : Gen) : EndpointResult :=
  ⟨[], [("message", "✅ SnapBoost AI backend is running!")]⟩

structure CaptionRequest where
  event : String
  choice : String

/-- Prompt composed by `generate_caption`, branching on the stripped,
lower-cased `choice` field. -/
def captionPrompt (request : CaptionRequest) : String :=
  let choice := pyLower (pyStrip request.choice)
  if choice = "caption" then
    "Write a short, catchy social media caption for the launch of: " ++ request.event
  else if choice = "idea" then
    "Give me creative marketing ideas for the launch of: " ++ request.event
  else if choice = "launch plan" then
    "Create a simple and effective launch plan for: " ++ request.event
  else
    "Tell me something helpful related to: " ++ request.event

/-- Endpoint `POST /generate-caption/`. -/
def generate_caption (gen : Gen) (request : CaptionRequest) : EndpointResult :=
  let prompt := captionPrompt request
  match gen prompt with
  | .ok text => ⟨[prompt], [("caption", pyStrip text)]⟩
  | .error e => ⟨[prompt], [("error", "❌ Failed to generate caption. Reason: " ++ e)]⟩

structure HashtagRequest where
  caption : String

/-- Prompt composed by `generate_hashtags` (a Python triple-quoted f-string,
including its leading newline and indentation). -/
def hashtagsPrompt (data : HashtagRequest) : String :=
  "\n    Generate a list of high-engagement social media hashtags based on the following caption. \n    Avoid spaces and return only the hashtags in Python list format.\n    Caption: "
    ++ data.caption ++ "\n    "

/-- Endpoint `POST /generate-hashtags/`. -/
def generate_hashtags (gen : Gen) (data : HashtagRequest) : EndpointResult :=
  let prompt := hashtagsPrompt data
  match gen prompt with
  | .ok text => ⟨[prompt], [("hashtags", pyStrip text)]⟩
  | .error e => ⟨[prompt], [("error", e)]⟩

structure IdeaRequest where
  platform : String
  niche : String
  audience_type : String

/-- Prompt composed by `generate_ideas`. -/
def ideasPrompt (data : IdeaRequest) : String :=
  "\n    You are a creative AI assistant for content creators. Generate 10 unique and viral content ideas for "
    ++ data.platform
    ++ " creators \n    in the \""
    ++ data.niche
    ++ "\" niche. Each idea should be engaging, suitable for the "
    ++ data.audience_type
    ++ ", and relevant to current trends.\n    Output the ideas as a numbered list.\n    "

/-- Endpoint `POST /generate-ideas/`. -/
def generate_ideas (gen : Gen) (data : IdeaRequest) : EndpointResult :=
  let prompt := ideasPrompt data
  match gen prompt with
  | .ok text => ⟨[prompt], [("ideas", pyStrip text)]⟩
  | .error e => ⟨[prompt], [("error", "❌ Failed to generate ideas. Reason: " ++ e)]⟩

structure ScriptInput where
  video_type : String
  topic : String

/-- The branch condition of `generate_script`: the stripped, lower-cased
`video_type` contains `"short"` or `"reel"`. -/
def scriptShortBranch (data : ScriptInput) : Bool :=
  let video_type := pyLower (pyStrip data.video_type)
  pyIn "short" video_type || pyIn "reel" video_type

/-- Prompt composed by `generate_script`: a short-form template when the
branch condition holds, a long-form template otherwise. -/
def scriptPrompt (data : ScriptInput) : String :=
  let video_type := pyLower (pyStrip data.video_type)
  let topic := pyStrip data.topic
  if scriptShortBranch data then
    "\n        Generate an engaging script for a 1-minute "
      ++ video_type
      ++ " about \""
      ++ topic
      ++ "\".\n        The script should have an attention-grabbing hook in the first few seconds,\n        use a casual and high-energy tone, include visual/action suggestions,\n        and end with a strong call to action.\n        "
  else
    "\n        Generate a detailed script for a YouTube video about \""
      ++ topic
      ++ "\".\n        The script should last about 10 minutes and include:\n        - Hook in the intro\n        - Structured explanation in sections\n        - Engaging storytelling tone\n        - Visual suggestions for each section\n        - Call to action at the end\n        Format the response as a script with timestamps.\n        "

/-- Endpoint `POST /generate-script/`. Its error message is a fixed generic
string, unlike the other endpoints. -/
def generate_script (gen : Gen) (data : ScriptInput) : EndpointResult :=
  let prompt := scriptPrompt data
  match gen prompt with
  | .ok text => ⟨[prompt], [("script", pyStrip text)]⟩
  | .error _ => ⟨[prompt], [("error", "❌ Failed to generate script. Please try again later.")]⟩

structure ThumbnailPromptRequest where
  topic : String
  style : String
  platform : String

/-- Prompt composed by `generate_thumbnail_prompt`. -/
def thumbnailPrompt (data : ThumbnailPromptRequest) : String :=
  "Generate a detailed and visually rich prompt for an AI image generator to create a thumbnail for a "
    ++ data.platform
    ++ " video.\nTopic: \""
    ++ data.topic
    ++ "\"\nStyle: "
    ++ data.style
    ++ "\nFocus on visual details like colors, elements, facial expressions, mood, typography, and composition.\nAvoid text in the prompt itself unless required."

/-- Endpoint `POST /generate-thumbnail-prompt/`. -/
def generate_thumbnail_prompt (gen : Gen) (data : ThumbnailPromptRequest) : EndpointResult :=
  let prompt := thumbnailPrompt data
  match gen prompt with
  | .ok text => ⟨[prompt], [("prompt", pyStrip text)]⟩
  | .error e => ⟨[prompt], [("error", e)]⟩

/-- The short-form script template, as a function of the values interpolated
into it (stated separately from `scriptPrompt` so that theorems can express
which values are interpolated). -/
def shortScriptTemplate (video_type topic : String) : String :=
  "\n        Generate an engaging script for a 1-minute "
    ++ video_type
    ++ " about \""
    ++ topic
    ++ "\".\n        The script should have an attention-grabbing hook in the first few seconds,\n        use a casual and high-energy tone, include visual/action suggestions,\n        and end with a strong call to action.\n        "

/-- The long-form script template, as a function of the single value
interpolated into it. -/
def longScriptTemplate (topic : String) : String :=
  "\n        Generate a detailed script for a YouTube video about \""
    ++ topic
    ++ "\".\n        The script should last about 10 minutes and include:\n        - Hook in the intro\n        - Structured explanation in sections\n        - Engaging storytelling tone\n        - Visual suggestions for each section\n        - Call to action at the end\n        Format the response as a script with timestamps.\n        "

end SnapBoost

namespace SnapBoost

set_option maxRecDepth 100000

/-! ### Helper lemmas about substring containment -/

theorem pyIn_eq_true_iff (pat s : String) : pyIn pat s = true ↔ pat.data <:+: s.data := by
  simp [pyIn]

theorem pyIn_append_of_left {p a : String} (b : String) (h : pyIn p a = true) :
    pyIn p (a ++ b) = true := by
  rw [pyIn_eq_true_iff] at h ⊢
  rw [String.data_append]
  exact h.trans (List.prefix_append a.data b.data).isInfix

theorem pyIn_append_of_right {p b : String} (a : String) (h : pyIn p b = true) :
    pyIn p (a ++ b) = true := by
  rw [pyIn_eq_true_iff] at h ⊢
  rw [String.data_append]
  exact h.trans (List.suffix_append a.data b.data).isInfix

theorem pyIn_append_right (a b : String) : pyIn b (a ++ b) = true := by
  rw [pyIn_eq_true_iff, String.data_append]
  exact (List.suffix_append a.data b.data).isInfix

theorem pyIn_refl (a : String) : pyIn a a = true := by
  rw [pyIn_eq_true_iff]

/-! ### Stripping whitespace does not affect containment of whitespace-free patterns -/

theorem wsChar_toLower {c : Char} (h : wsChar c = true) : c.toLower = c := by
  simp [wsChar] at h
  rcases h with ((((h | h) | h) | h) | h) | h <;> subst h <;> decide

theorem rev_split (m : List Char) :
    m = (m.reverse.dropWhile wsChar).reverse ++ (m.reverse.takeWhile wsChar).reverse := by
  have h : m.reverse.takeWhile wsChar ++ m.reverse.dropWhile wsChar = m.reverse :=
    List.takeWhile_append_dropWhile wsChar m.reverse
  calc m = m.reverse.reverse := (List.reverse_reverse m).symm
    _ = (m.reverse.takeWhile wsChar ++ m.reverse.dropWhile wsChar).reverse := by rw [h]
    _ = (m.reverse.dropWhile wsChar).reverse ++ (m.reverse.takeWhile wsChar).reverse := by
        rw [List.reverse_append]

theorem pyStripData_decomp (l : List Char) :
    ∃ t u, l = t ++ (pyStripData l ++ u) ∧ (∀ c ∈ t, wsChar c = true) ∧
      (∀ c ∈ u, wsChar c = true) := by
  refine ⟨l.takeWhile wsChar, ((l.dropWhile wsChar).reverse.takeWhile wsChar).reverse, ?_, ?_, ?_⟩
  · conv_lhs => rw [← List.takeWhile_append_dropWhile wsChar l]
    rw [pyStripData]
    conv_lhs => rw [rev_split (l.dropWhile wsChar)]
  · exact fun c hc => List.mem_takeWhile_imp hc
  · exact fun c hc => List.mem_takeWhile_imp (List.mem_reverse.mp hc)

theorem infix_strip_front (p m : List Char) (hp : ∀ c ∈ p, wsChar c = false) (hne : p ≠ []) :
    ∀ t : List Char, (∀ c ∈ t, wsChar c = true) → p <:+: t ++ m → p <:+: m := by
  intro t
  induction t with
  | nil => intro _ h; simpa using h
  | cons a t ih =>
    intro ht h
    rw [List.cons_append] at h
    rcases List.infix_cons_iff.mp h with hpre | hinf
    · cases p with
      | nil => exact absurd rfl hne
      | cons q qs =>
        rcases hpre with ⟨r, hr⟩
        rw [List.cons_append] at hr
        injection hr with h1 _
        have hq := hp q (List.mem_cons_self _ _)
        have ha := ht a (List.mem_cons_self _ _)
        rw [h1] at hq
        rw [hq] at ha
        exact Bool.noConfusion ha
    · exact ih (fun c hc => ht c (List.mem_cons_of_mem _ hc)) hinf

theorem infix_strip_back (p m u : List Char) (hp : ∀ c ∈ p, wsChar c = false) (hne : p ≠ [])
    (hu : ∀ c ∈ u, wsChar c = true) (h : p <:+: m ++ u) : p <:+: m := by
  have h' : p.reverse <:+: u.reverse ++ m.reverse := by
    rw [← List.reverse_append]
    exact List.reverse_infix.mpr h
  have hp' : ∀ c ∈ p.reverse, wsChar c = false := fun c hc => hp c (List.mem_reverse.mp hc)
  have hne' : p.reverse ≠ [] := by simpa using hne
  have hu' : ∀ c ∈ u.reverse, wsChar c = true := fun c hc => hu c (List.mem_reverse.mp hc)
  exact List.reverse_infix.mp (infix_strip_front p.reverse m.reverse hp' hne' u.reverse hu' h')

/-- Containment of a nonempty whitespace-free pattern in the lower-cased,
stripped string agrees with containment in the lower-cased raw string. -/
theorem pyIn_strip_lower (p s : String) (hp : ∀ c ∈ p.data, wsChar c = false)
    (hne : p.data ≠ []) : pyIn p (pyLower (pyStrip s)) = pyIn p (pyLower s) := by
  rw [Bool.eq_iff_iff, pyIn_eq_true_iff, pyIn_eq_true_iff]
  obtain ⟨t, u, hdecomp, ht, hu⟩ := pyStripData_decomp s.data
  have hdata : (pyLower s).data =
      t.map Char.toLower ++ ((pyLower (pyStrip s)).data ++ u.map Char.toLower) := by
    show s.data.map Char.toLower = _
    conv_lhs => rw [hdecomp]
    rw [List.map_append, List.map_append]
    rfl
  have htL : ∀ c ∈ t.map Char.toLower, wsChar c = true := by
    intro c hc
    rcases List.mem_map.mp hc with ⟨c0, hc0, hc0e⟩
    have := ht c0 hc0
    rw [← hc0e, wsChar_toLower this]
    exact this
  have huL : ∀ c ∈ u.map Char.toLower, wsChar c = true := by
    intro c hc
    rcases List.mem_map.mp hc with ⟨c0, hc0, hc0e⟩
    have := hu c0 hc0
    rw [← hc0e, wsChar_toLower this]
    exact this
  constructor
  · intro h
    rw [hdata]
    exact h.trans (List.infix_append' _ _ _)
  · intro h
    rw [hdata] at h
    have h1 := infix_strip_front p.data ((pyLower (pyStrip s)).data ++ u.map Char.toLower)
      hp hne (t.map Char.toLower) htL h
    exact infix_strip_back p.data (pyLower (pyStrip s)).data (u.map Char.toLower) hp hne huL h1

end SnapBoost

namespace SnapBoost

set_option maxRecDepth 100000

/-! ### Claim theorems -/

/-- C1 counterexample: the claim says the error string for `/generate-caption/`
is exactly the underlying exception message, but the code prefixes it with a
fixed header. With the collaborator failing with message "boom", the body is
not `{error: "boom"}`. -/
theorem C1_counterexample :
    (generate_caption (fun _ => Except.error "boom") ⟨"e", "x"⟩).body ≠ [("error", "boom")] ∧
    (generate_caption (fun _ => Except.error "boom") ⟨"e", "x"⟩).body
      = [("error", "❌ Failed to generate caption. Reason: boom")] := by
  exact ⟨by decide, rfl⟩

/-- C1 (amended): on a collaborator failure with message `e`, the hashtags and
thumbnail-prompt endpoints return `{error: e}` verbatim; the caption and ideas
endpoints return `e` prefixed with a fixed header; the script endpoint returns
one fixed generic string independent of `e`. -/
theorem C1_amended_error_bodies (gen : Gen) (e : String) :
    (∀ r : CaptionRequest, gen (captionPrompt r) = Except.error e →
      (generate_caption gen r).body
        = [("error", "❌ Failed to generate caption. Reason: " ++ e)]) ∧
    (∀ r : HashtagRequest, gen (hashtagsPrompt r) = Except.error e →
      (generate_hashtags gen r).body = [("error", e)]) ∧
    (∀ r : IdeaRequest, gen (ideasPrompt r) = Except.error e →
      (generate_ideas gen r).body
        = [("error", "❌ Failed to generate ideas. Reason: " ++ e)]) ∧
    (∀ r : ThumbnailPromptRequest, gen (thumbnailPrompt r) = Except.error e →
      (generate_thumbnail_prompt gen r).body = [("error", e)]) ∧
    (∀ r : ScriptInput, gen (scriptPrompt r) = Except.error e →
      (generate_script gen r).body
        = [("error", "❌ Failed to generate script. Please try again later.")]) := by
  refine ⟨?_, ?_, ?_, ?_, ?_⟩ <;> intro r h <;>
    simp [generate_caption, generate_hashtags, generate_ideas, generate_thumbnail_prompt,
      generate_script, h]

/-- Witness for C1 (amended) at concrete requests with a failing collaborator. -/
theorem C1_amended_witness :
    (generate_caption (fun _ => Except.error "boom") ⟨"e", "x"⟩).body
      = [("error", "❌ Failed to generate caption. Reason: boom")] ∧
    (generate_hashtags (fun _ => Except.error "boom") ⟨"c"⟩).body = [("error", "boom")] ∧
    (generate_ideas (fun _ => Except.error "boom") ⟨"p", "n", "a"⟩).body
      = [("error", "❌ Failed to generate ideas. Reason: boom")] ∧
    (generate_thumbnail_prompt (fun _ => Except.error "boom") ⟨"t", "s", "p"⟩).body
      = [("error", "boom")] ∧
    (generate_script (fun _ => Except.error "boom") ⟨"v", "t"⟩).body
      = [("error", "❌ Failed to generate script. Please try again later.")] :=
  ⟨(C1_amended_error_bodies (fun _ => Except.error "boom") "boom").1 ⟨"e", "x"⟩ rfl,
   (C1_amended_error_bodies (fun _ => Except.error "boom") "boom").2.1 ⟨"c"⟩ rfl,
   (C1_amended_error_bodies (fun _ => Except.error "boom") "boom").2.2.1 ⟨"p", "n", "a"⟩ rfl,
   (C1_amended_error_bodies (fun _ => Except.error "boom") "boom").2.2.2.1 ⟨"t", "s", "p"⟩ rfl,
   (C1_amended_error_bodies (fun _ => Except.error "boom") "boom").2.2.2.2 ⟨"v", "t"⟩ rfl⟩

/-- C2: `generate_caption` selects its template by the trimmed, lower-cased
`choice` field: "caption" yields a prompt containing "catchy social media
caption", "idea" one containing "creative marketing ideas", "launch plan" one
containing "launch plan", and anything else the generic fallback containing
the event text; and the request `{event: "sneaker launch", choice: "Caption"}`
produces the documented outbound prompt. -/
theorem C2_caption_template (r : CaptionRequest) :
    (pyLower (pyStrip r.choice) = "caption" →
      pyIn "catchy social media caption" (captionPrompt r) = true) ∧
    (pyLower (pyStrip r.choice) = "idea" →
      pyIn "creative marketing ideas" (captionPrompt r) = true) ∧
    (pyLower (pyStrip r.choice) = "launch plan" →
      pyIn "launch plan" (captionPrompt r) = true) ∧
    (pyLower (pyStrip r.choice) ≠ "caption" → pyLower (pyStrip r.choice) ≠ "idea" →
      pyLower (pyStrip r.choice) ≠ "launch plan" →
      captionPrompt r = "Tell me something helpful related to: " ++ r.event ∧
      pyIn r.event (captionPrompt r) = true) ∧
    pyIn "Write a short, catchy social media caption for the launch of: sneaker launch"
      (captionPrompt ⟨"sneaker launch", "Caption"⟩) = true := by
  refine ⟨?_, ?_, ?_, ?_, by decide⟩
  · intro h
    simp only [captionPrompt, h, if_pos]
    exact pyIn_append_of_left _ (by decide)
  · intro h
    simp [captionPrompt, h]
    exact pyIn_append_of_left _ (by decide)
  · intro h
    simp [captionPrompt, h]
    exact pyIn_append_of_left _ (by decide)
  · intro h1 h2 h3
    have hp : captionPrompt r = "Tell me something helpful related to: " ++ r.event := by
      simp [captionPrompt, h1, h2, h3]
    refine ⟨hp, ?_⟩
    rw [hp]
    exact pyIn_append_right _ _

/-- Witness for C2 at concrete requests hitting each branch. -/
theorem C2_caption_template_witness :
    pyIn "catchy social media caption" (captionPrompt ⟨"x", " CAPTION "⟩) = true ∧
    pyIn "creative marketing ideas" (captionPrompt ⟨"x", "Idea"⟩) = true ∧
    pyIn "launch plan" (captionPrompt ⟨"x", "LAUNCH PLAN"⟩) = true ∧
    pyIn "x" (captionPrompt ⟨"x", "other"⟩) = true :=
  ⟨(C2_caption_template ⟨"x", " CAPTION "⟩).1 (by decide),
   (C2_caption_template ⟨"x", "Idea"⟩).2.1 (by decide),
   (C2_caption_template ⟨"x", "LAUNCH PLAN"⟩).2.2.1 (by decide),
   ((C2_caption_template ⟨"x", "other"⟩).2.2.2.1 (by decide) (by decide) (by decide)).2⟩

/-- C3: `generate_script` selects the short-form template exactly when the
`video_type` field contains "short" or "reel" case-insensitively (containment
in the lower-cased raw field), and the long-form template otherwise. -/
theorem C3_script_template_selection (s : ScriptInput) :
    (scriptShortBranch s
      = (pyIn "short" (pyLower s.video_type) || pyIn "reel" (pyLower s.video_type))) ∧
    (scriptShortBranch s = true →
      scriptPrompt s = shortScriptTemplate (pyLower (pyStrip s.video_type)) (pyStrip s.topic)) ∧
    (scriptShortBranch s = false → scriptPrompt s = longScriptTemplate (pyStrip s.topic)) := by
  refine ⟨?_, ?_, ?_⟩
  · show (pyIn "short" (pyLower (pyStrip s.video_type))
        || pyIn "reel" (pyLower (pyStrip s.video_type))) = _
    rw [pyIn_strip_lower "short" s.video_type (by decide) (by decide),
      pyIn_strip_lower "reel" s.video_type (by decide) (by decide)]
  · intro h
    simp [scriptPrompt, shortScriptTemplate, h]
  · intro h
    simp [scriptPrompt, longScriptTemplate, h]

/-- Witness for C3 at concrete inputs hitting both branches. -/
theorem C3_witness :
    scriptShortBranch ⟨"Shorts", "t"⟩
      = (pyIn "short" (pyLower "Shorts") || pyIn "reel" (pyLower "Shorts")) ∧
    scriptPrompt ⟨"Shorts", "t"⟩
      = shortScriptTemplate (pyLower (pyStrip "Shorts")) (pyStrip "t") ∧
    scriptPrompt ⟨"documentary", "t"⟩ = longScriptTemplate (pyStrip "t") :=
  ⟨(C3_script_template_selection ⟨"Shorts", "t"⟩).1,
   (C3_script_template_selection ⟨"Shorts", "t"⟩).2.1 (by decide),
   (C3_script_template_selection ⟨"documentary", "t"⟩).2.2 (by decide)⟩

end SnapBoost

namespace SnapBoost

set_option maxRecDepth 100000

/-- C4: each generation endpoint sends exactly one prompt to the collaborator
per request (in both outcomes), and on success the collaborator's text,
stripped of surrounding whitespace, is the value of the endpoint-specific
success field. -/
theorem C4_one_call_success_field (gen : Gen) (t : String) :
    (∀ r : CaptionRequest, (generate_caption gen r).calls = [captionPrompt r] ∧
      (gen (captionPrompt r) = Except.ok t →
        (generate_caption gen r).body = [("caption", pyStrip t)])) ∧
    (∀ r : HashtagRequest, (generate_hashtags gen r).calls = [hashtagsPrompt r] ∧
      (gen (hashtagsPrompt r) = Except.ok t →
        (generate_hashtags gen r).body = [("hashtags", pyStrip t)])) ∧
    (∀ r : IdeaRequest, (generate_ideas gen r).calls = [ideasPrompt r] ∧
      (gen (ideasPrompt r) = Except.ok t →
        (generate_ideas gen r).body = [("ideas", pyStrip t)])) ∧
    (∀ r : ScriptInput, (generate_script gen r).calls = [scriptPrompt r] ∧
      (gen (scriptPrompt r) = Except.ok t →
        (generate_script gen r).body = [("script", pyStrip t)])) ∧
    (∀ r : ThumbnailPromptRequest,
      (generate_thumbnail_prompt gen r).calls = [thumbnailPrompt r] ∧
      (gen (thumbnailPrompt r) = Except.ok t →
        (generate_thumbnail_prompt gen r).body = [("prompt", pyStrip t)])) := by
  refine ⟨?_, ?_, ?_, ?_, ?_⟩ <;> intro r <;> constructor
  · cases hgen : gen (captionPrompt r) <;> simp [generate_caption, hgen]
  · intro h; simp [generate_caption, h]
  · cases hgen : gen (hashtagsPrompt r) <;> simp [generate_hashtags, hgen]
  · intro h; simp [generate_hashtags, h]
  · cases hgen : gen (ideasPrompt r) <;> simp [generate_ideas, hgen]
  · intro h; simp [generate_ideas, h]
  · cases hgen : gen (scriptPrompt r) <;> simp [generate_script, hgen]
  · intro h; simp [generate_script, h]
  · cases hgen : gen (thumbnailPrompt r) <;> simp [generate_thumbnail_prompt, hgen]
  · intro h; simp [generate_thumbnail_prompt, h]

/-- Witness for C4 at concrete requests with a stub collaborator returning
text with surrounding whitespace. -/
theorem C4_witness :
    (generate_caption (fun _ => Except.ok " out ") ⟨"e", "x"⟩).calls
      = [captionPrompt ⟨"e", "x"⟩] ∧
    (generate_caption (fun _ => Except.ok " out ") ⟨"e", "x"⟩).body
      = [("caption", pyStrip " out ")] ∧
    (generate_hashtags (fun _ => Except.ok " out ") ⟨"c"⟩).body
      = [("hashtags", pyStrip " out ")] ∧
    (generate_ideas (fun _ => Except.ok " out ") ⟨"p", "n", "a"⟩).body
      = [("ideas", pyStrip " out ")] ∧
    (generate_script (fun _ => Except.ok " out ") ⟨"v", "t"⟩).body
      = [("script", pyStrip " out ")] ∧
    (generate_thumbnail_prompt (fun _ => Except.ok " out ") ⟨"t", "s", "p"⟩).body
      = [("prompt", pyStrip " out ")] :=
  ⟨((C4_one_call_success_field (fun _ => Except.ok " out ") " out ").1 ⟨"e", "x"⟩).1,
   ((C4_one_call_success_field (fun _ => Except.ok " out ") " out ").1 ⟨"e", "x"⟩).2 rfl,
   ((C4_one_call_success_field (fun _ => Except.ok " out ") " out ").2.1 ⟨"c"⟩).2 rfl,
   ((C4_one_call_success_field (fun _ => Except.ok " out ") " out ").2.2.1 ⟨"p", "n", "a"⟩).2 rfl,
   ((C4_one_call_success_field (fun _ => Except.ok " out ") " out ").2.2.2.1 ⟨"v", "t"⟩).2 rfl,
   ((C4_one_call_success_field (fun _ => Except.ok " out ") " out ").2.2.2.2 ⟨"t", "s", "p"⟩).2 rfl⟩

/-- C5: every collaborator failure is absorbed at the endpoint boundary: the
endpoint still returns a normal body carrying the `error` key, exactly one
call was made (no retry), and no exception escapes (the endpoints are total
functions in the model). -/
theorem C5_failure_contained (gen : Gen) (e : String) :
    (∀ r : CaptionRequest, gen (captionPrompt r) = Except.error e →
      (generate_caption gen r).calls.length = 1 ∧
      ∃ v, (generate_caption gen r).body = [("error", v)]) ∧
    (∀ r : HashtagRequest, gen (hashtagsPrompt r) = Except.error e →
      (generate_hashtags gen r).calls.length = 1 ∧
      ∃ v, (generate_hashtags gen r).body = [("error", v)]) ∧
    (∀ r : IdeaRequest, gen (ideasPrompt r) = Except.error e →
      (generate_ideas gen r).calls.length = 1 ∧
      ∃ v, (generate_ideas gen r).body = [("error", v)]) ∧
    (∀ r : ScriptInput, gen (scriptPrompt r) = Except.error e →
      (generate_script gen r).calls.length = 1 ∧
      ∃ v, (generate_script gen r).body = [("error", v)]) ∧
    (∀ r : ThumbnailPromptRequest, gen (thumbnailPrompt r) = Except.error e →
      (generate_thumbnail_prompt gen r).calls.length = 1 ∧
      ∃ v, (generate_thumbnail_prompt gen r).body = [("error", v)]) := by
  refine ⟨?_, ?_, ?_, ?_, ?_⟩ <;> intro r h <;>
    simp [generate_caption, generate_hashtags, generate_ideas, generate_script,
      generate_thumbnail_prompt, h]

/-- Witness for C5 at a concrete request with a failing collaborator. -/
theorem C5_witness :
    (generate_caption (fun _ => Except.error "down") ⟨"e", "x"⟩).calls.length = 1 ∧
    ∃ v, (generate_caption (fun _ => Except.error "down") ⟨"e", "x"⟩).body = [("error", v)] :=
  (C5_failure_contained (fun _ => Except.error "down") "down").1 ⟨"e", "x"⟩ rfl

/-- C7: the health endpoint returns the fixed message whatever the
collaborator does, and makes no collaborator call. -/
theorem C7_root_health (gen : Gen) :
    (root gen).calls = [] ∧
    (root gen).body = [("message", "✅ SnapBoost AI backend is running!")] :=
  ⟨rfl, rfl⟩

/-- C8: for every endpoint and every outcome, the body is a single key/value
pair whose key is the endpoint's designated success field or `error`. -/
theorem C8_single_key_body (gen : Gen) :
    ((root gen).body.map Prod.fst = ["message"]) ∧
    (∀ r : CaptionRequest, (generate_caption gen r).body.map Prod.fst = ["caption"] ∨
      (generate_caption gen r).body.map Prod.fst = ["error"]) ∧
    (∀ r : HashtagRequest, (generate_hashtags gen r).body.map Prod.fst = ["hashtags"] ∨
      (generate_hashtags gen r).body.map Prod.fst = ["error"]) ∧
    (∀ r : IdeaRequest, (generate_ideas gen r).body.map Prod.fst = ["ideas"] ∨
      (generate_ideas gen r).body.map Prod.fst = ["error"]) ∧
    (∀ r : ScriptInput, (generate_script gen r).body.map Prod.fst = ["script"] ∨
      (generate_script gen r).body.map Prod.fst = ["error"]) ∧
    (∀ r : ThumbnailPromptRequest,
      (generate_thumbnail_prompt gen r).body.map Prod.fst = ["prompt"] ∨
      (generate_thumbnail_prompt gen r).body.map Prod.fst = ["error"]) := by
  refine ⟨rfl, ?_, ?_, ?_, ?_, ?_⟩ <;> intro r
  · cases hgen : gen (captionPrompt r)
    · right; simp [generate_caption, hgen]
    · left; simp [generate_caption, hgen]
  · cases hgen : gen (hashtagsPrompt r)
    · right; simp [generate_hashtags, hgen]
    · left; simp [generate_hashtags, hgen]
  · cases hgen : gen (ideasPrompt r)
    · right; simp [generate_ideas, hgen]
    · left; simp [generate_ideas, hgen]
  · cases hgen : gen (scriptPrompt r)
    · right; simp [generate_script, hgen]
    · left; simp [generate_script, hgen]
  · cases hgen : gen (thumbnailPrompt r)
    · right; simp [generate_thumbnail_prompt, hgen]
    · left; simp [generate_thumbnail_prompt, hgen]

end SnapBoost

namespace SnapBoost

set_option maxRecDepth 100000

/-- C6 counterexample: the claim says every endpoint substitutes the request
fields into the prompt unchanged, but `generate_script` lower-cases and strips
them first: with `video_type = "SHORT"` the composed prompt does not contain
the raw value "SHORT", and with `topic = " x "` it does not contain the raw
value " x ". -/
theorem C6_counterexample :
    pyIn "SHORT" (scriptPrompt ⟨"SHORT", "x"⟩) = false ∧
    pyIn " x " (scriptPrompt ⟨"SHORT", " x "⟩) = false := by
  exact ⟨by decide, by decide⟩

/-- C6 (amended): the caption, hashtags, ideas, and thumbnail-prompt endpoints
substitute the raw request fields into their templates unchanged (each raw
field occurs verbatim in the composed prompt); the script endpoint instead
substitutes the stripped `topic` (in both branches) and, in the short-form
branch, the stripped, lower-cased `video_type`. -/
theorem C6_amended_interpolation (r1 : CaptionRequest) (r2 : HashtagRequest)
    (r3 : IdeaRequest) (r4 : ScriptInput) (r5 : ThumbnailPromptRequest) :
    pyIn r1.event (captionPrompt r1) = true ∧
    pyIn r2.caption (hashtagsPrompt r2) = true ∧
    (pyIn r3.platform (ideasPrompt r3) = true ∧ pyIn r3.niche (ideasPrompt r3) = true ∧
      pyIn r3.audience_type (ideasPrompt r3) = true) ∧
    ((scriptShortBranch r4 = true →
        pyIn (pyLower (pyStrip r4.video_type)) (scriptPrompt r4) = true) ∧
      pyIn (pyStrip r4.topic) (scriptPrompt r4) = true) ∧
    (pyIn r5.topic (thumbnailPrompt r5) = true ∧ pyIn r5.style (thumbnailPrompt r5) = true ∧
      pyIn r5.platform (thumbnailPrompt r5) = true) := by
  refine ⟨?_, ?_, ⟨?_, ?_, ?_⟩, ⟨?_, ?_⟩, ⟨?_, ?_, ?_⟩⟩
  · simp only [captionPrompt]
    split
    · exact pyIn_append_right _ _
    · split
      · exact pyIn_append_right _ _
      · split
        · exact pyIn_append_right _ _
        · exact pyIn_append_right _ _
  · exact pyIn_append_of_left _ (pyIn_append_right _ _)
  · simp only [ideasPrompt]
    exact pyIn_append_of_left _ (pyIn_append_of_left _ (pyIn_append_of_left _
      (pyIn_append_of_left _ (pyIn_append_of_left _ (pyIn_append_right _ _)))))
  · simp only [ideasPrompt]
    exact pyIn_append_of_left _ (pyIn_append_of_left _ (pyIn_append_of_left _
      (pyIn_append_right _ _)))
  · simp only [ideasPrompt]
    exact pyIn_append_of_left _ (pyIn_append_right _ _)
  · intro h
    have hp : scriptPrompt r4
        = shortScriptTemplate (pyLower (pyStrip r4.video_type)) (pyStrip r4.topic) := by
      simp [scriptPrompt, shortScriptTemplate, h]
    rw [hp]
    simp only [shortScriptTemplate]
    exact pyIn_append_of_left _ (pyIn_append_of_left _ (pyIn_append_of_left _
      (pyIn_append_right _ _)))
  · simp only [scriptPrompt]
    split
    · exact pyIn_append_of_left _ (pyIn_append_right _ _)
    · exact pyIn_append_of_left _ (pyIn_append_right _ _)
  · simp only [thumbnailPrompt]
    exact pyIn_append_of_left _ (pyIn_append_of_left _ (pyIn_append_of_left _
      (pyIn_append_right _ _)))
  · simp only [thumbnailPrompt]
    exact pyIn_append_of_left _ (pyIn_append_right _ _)
  · simp only [thumbnailPrompt]
    exact pyIn_append_of_left _ (pyIn_append_of_left _ (pyIn_append_of_left _
      (pyIn_append_of_left _ (pyIn_append_of_left _ (pyIn_append_right _ _)))))

/-- Witness for C6 (amended) at concrete requests, discharging the short-form
branch hypothesis of the script conjunct. -/
theorem C6_amended_witness :
    pyIn "ev" (captionPrompt ⟨"ev", "c"⟩) = true ∧
    pyIn (pyLower (pyStrip "SHORT ")) (scriptPrompt ⟨"SHORT ", " my topic "⟩) = true ∧
    pyIn (pyStrip " my topic ") (scriptPrompt ⟨"SHORT ", " my topic "⟩) = true :=
  ⟨(C6_amended_interpolation ⟨"ev", "c"⟩ ⟨"c"⟩ ⟨"p", "n", "a"⟩ ⟨"SHORT ", " my topic "⟩
      ⟨"t", "s", "p"⟩).1,
   (C6_amended_interpolation ⟨"ev", "c"⟩ ⟨"c"⟩ ⟨"p", "n", "a"⟩ ⟨"SHORT ", " my topic "⟩
      ⟨"t", "s", "p"⟩).2.2.2.1.1 (by decide),
   (C6_amended_interpolation ⟨"ev", "c"⟩ ⟨"c"⟩ ⟨"p", "n", "a"⟩ ⟨"SHORT ", " my topic "⟩
      ⟨"t", "s", "p"⟩).2.2.2.1.2⟩

/-- C9 counterexample: the claim says the long-form prompt does not contain
the `video_type` value at all, but for `video_type = "video"` the long-form
branch is taken and its fixed template text contains "video". -/
theorem C9_counterexample :
    scriptShortBranch ⟨"video", "t"⟩ = false ∧
    pyIn "video" (scriptPrompt ⟨"video", "t"⟩) = true := by
  exact ⟨by decide, by decide⟩

/-- C9 (amended): in the short-form branch the interpolated values are the
stripped, lower-cased `video_type` and the stripped `topic`; in the long-form
branch the prompt is a function of the stripped `topic` alone, so `video_type`
influences only the branch taken (its text may still occur in the fixed
template wording). -/
theorem C9_amended_script_interpolation (s : ScriptInput) :
    (scriptShortBranch s = true →
      scriptPrompt s = shortScriptTemplate (pyLower (pyStrip s.video_type)) (pyStrip s.topic)) ∧
    (scriptShortBranch s = false → scriptPrompt s = longScriptTemplate (pyStrip s.topic)) ∧
    (∀ s' : ScriptInput, scriptShortBranch s = false → scriptShortBranch s' = false →
      pyStrip s.topic = pyStrip s'.topic → scriptPrompt s = scriptPrompt s') := by
  refine ⟨?_, ?_, ?_⟩
  · intro h
    simp [scriptPrompt, shortScriptTemplate, h]
  · intro h
    simp [scriptPrompt, longScriptTemplate, h]
  · intro s' h h' htop
    simp [scriptPrompt, h, h', htop]

/-- Witness for C9 (amended) at concrete inputs for each conjunct. -/
theorem C9_witness :
    scriptPrompt ⟨"Short video", "My topic "⟩
      = shortScriptTemplate (pyLower (pyStrip "Short video")) (pyStrip "My topic ") ∧
    scriptPrompt ⟨"documentary", " T "⟩ = longScriptTemplate (pyStrip " T ") ∧
    scriptPrompt ⟨"documentary", " T "⟩ = scriptPrompt ⟨"vlog", "T"⟩ :=
  ⟨(C9_amended_script_interpolation ⟨"Short video", "My topic "⟩).1 (by decide),
   (C9_amended_script_interpolation ⟨"documentary", " T "⟩).2.1 (by decide),
   (C9_amended_script_interpolation ⟨"documentary", " T "⟩).2.2 ⟨"vlog", "T"⟩
     (by decide) (by decide) (by decide)⟩

/-- C10: for every endpoint the composed prompt is a deterministic function of
the declared request fields alone: requests with equal field values produce
identical prompts. -/
theorem C10_prompt_deterministic :
    (∀ r r' : CaptionRequest, r.event = r'.event → r.choice = r'.choice →
      captionPrompt r = captionPrompt r') ∧
    (∀ r r' : HashtagRequest, r.caption = r'.caption → hashtagsPrompt r = hashtagsPrompt r') ∧
    (∀ r r' : IdeaRequest, r.platform = r'.platform → r.niche = r'.niche →
      r.audience_type = r'.audience_type → ideasPrompt r = ideasPrompt r') ∧
    (∀ r r' : ScriptInput, r.video_type = r'.video_type → r.topic = r'.topic →
      scriptPrompt r = scriptPrompt r') ∧
    (∀ r r' : ThumbnailPromptRequest, r.topic = r'.topic → r.style = r'.style →
      r.platform = r'.platform → thumbnailPrompt r = thumbnailPrompt r') := by
  refine ⟨?_, ?_, ?_, ?_, ?_⟩
  · intro r r' h1 h2; cases r; cases r'; cases h1; cases h2; rfl
  · intro r r' h1; cases r; cases r'; cases h1; rfl
  · intro r r' h1 h2 h3; cases r; cases r'; cases h1; cases h2; cases h3; rfl
  · intro r r' h1 h2; cases r; cases r'; cases h1; cases h2; rfl
  · intro r r' h1 h2 h3; cases r; cases r'; cases h1; cases h2; cases h3; rfl

/-- Witness for C10 at concrete equal-field requests. -/
theorem C10_witness :
    captionPrompt ⟨"e", "c"⟩ = captionPrompt ⟨"e", "c"⟩ ∧
    hashtagsPrompt ⟨"c"⟩ = hashtagsPrompt ⟨"c"⟩ ∧
    ideasPrompt ⟨"p", "n", "a"⟩ = ideasPrompt ⟨"p", "n", "a"⟩ ∧
    scriptPrompt ⟨"v", "t"⟩ = scriptPrompt ⟨"v", "t"⟩ ∧
    thumbnailPrompt ⟨"t", "s", "p"⟩ = thumbnailPrompt ⟨"t", "s", "p"⟩ :=
  ⟨C10_prompt_deterministic.1 ⟨"e", "c"⟩ ⟨"e", "c"⟩ rfl rfl,
   C10_prompt_deterministic.2.1 ⟨"c"⟩ ⟨"c"⟩ rfl,
   C10_prompt_deterministic.2.2.1 ⟨"p", "n", "a"⟩ ⟨"p", "n", "a"⟩ rfl rfl rfl,
   C10_prompt_deterministic.2.2.2.1 ⟨"v", "t"⟩ ⟨"v", "t"⟩ rfl rfl,
   C10_prompt_deterministic.2.2.2.2 ⟨"t", "s", "p"⟩ ⟨"t", "s", "p"⟩ rfl rfl rfl⟩

end SnapBoost
